import Mathlib

/-!
Shallow embedding of the data-acquisition core of pg_activity
(`pgactivity/data.py`), covering version resolution, query-bracket
selection, db-info rate derivation, reconnection, the caller-facing
connect wrapper, the duration-column selector and the local-connection
check, together with theorems settling the specification claims.

Database round-trips are external effects: each embedded operation takes
the row(s) the cursor would fetch (or the outcome the client library's
connect call would produce) as explicit arguments, and models raised
exceptions with `Except`.
-/

namespace PgActivity

/-! ## Version resolution (`pg_get_num_version`, `pg_get_num_dev_version`)

The two Python regexes are modelled by hand-rolled matchers on `List Char`.
Both patterns are anchored (`re.match`), their digit groups `[0-9]+` are
greedy runs whose following context is always a non-digit, so maximal-munch
matching coincides with the backtracking semantics of the originals.
-/

/-- Drop the literal `lit` from the front of `s`; `none` when `s` does not
start with `lit`. -/
def dropLit : List Char → List Char → Option (List Char)
  | [], s => some s
  | _ :: _, [] => none
  | c :: cs, d :: ds => if c = d then dropLit cs ds else none

/-- Match the anchored alternation `(PostgreSQL|EnterpriseDB) ` (with the
following literal space), returning the consumed characters and the rest. -/
def matchProduct (s : List Char) : Option (List Char × List Char) :=
  match dropLit "PostgreSQL ".toList s with
  | some r => some ("PostgreSQL ".toList, r)
  | none =>
    match dropLit "EnterpriseDB ".toList s with
    | some r => some ("EnterpriseDB ".toList, r)
    | none => none

/-- Result of the stable-release regex
`^(PostgreSQL|EnterpriseDB) ([0-9]+)\.([0-9]+)(?:\.([0-9]+))?`:
`matched` is `group(0)`, the remaining fields are groups 2-4. -/
structure StableMatch where
  matched : List Char
  major : List Char
  minor : List Char
  patch : Option (List Char)
  deriving Repr, DecidableEq

/-- The optional patch group `(?:\.([0-9]+))?` of the stable-release regex:
the digits it captures, when the rest of the input starts with a dot
followed by at least one digit. -/
def optionalDotDigits (rest : List Char) : Option (List Char) :=
  match rest with
  | c :: r =>
    if c = '.' then
      let p := r.span Char.isDigit
      if p.1.isEmpty then none else some p.1
    else none
  | [] => none

/-- The stable-release regex of `pg_get_num_version`. -/
def matchStable (s : List Char) : Option StableMatch :=
  match matchProduct s with
  | none => none
  | some (pre, r) =>
    let p1 := r.span Char.isDigit
    if p1.1.isEmpty then none
    else
      match optionalDotDigits p1.2 with
      | none => none
      | some mi =>
        let rest := p1.2.drop (mi.length + 1)
        match optionalDotDigits rest with
        | none => some ⟨pre ++ p1.1 ++ ['.'] ++ mi, p1.1, mi, none⟩
        | some pa =>
          some ⟨pre ++ p1.1 ++ ['.'] ++ mi ++ ['.'] ++ pa, p1.1, mi, some pa⟩

/-- Result of the development regex
`^(PostgreSQL|EnterpriseDB) ([0-9]+)(?:\.([0-9]+))?(devel|beta[0-9]+|rc[0-9]+)`. -/
structure DevMatch where
  matched : List Char
  major : List Char
  minor : Option (List Char)
  suffix : List Char
  deriving Repr, DecidableEq

/-- The alternation `(devel|beta[0-9]+|rc[0-9]+)`, returning the consumed
characters and the rest. -/
def matchDevSuffix (s : List Char) : Option (List Char × List Char) :=
  match dropLit "devel".toList s with
  | some r => some ("devel".toList, r)
  | none =>
    match dropLit "beta".toList s with
    | some r =>
      let p := r.span Char.isDigit
      if p.1.isEmpty then none else some ("beta".toList ++ p.1, p.2)
    | none =>
      match dropLit "rc".toList s with
      | some r =>
        let p := r.span Char.isDigit
        if p.1.isEmpty then none else some ("rc".toList ++ p.1, p.2)
      | none => none

/-- The development regex of `pg_get_num_dev_version`.  When the optional
`\.([0-9]+)` group cannot be completed the matcher retries the suffix right
after the major digits, mirroring the regex engine's backtracking. -/
def matchDev (s : List Char) : Option DevMatch :=
  match matchProduct s with
  | none => none
  | some (pre, r) =>
    let p1 := r.span Char.isDigit
    if p1.1.isEmpty then none
    else
      let noMinor : Option DevMatch :=
        match matchDevSuffix p1.2 with
        | some (suf, _) => some ⟨pre ++ p1.1 ++ suf, p1.1, none, suf⟩
        | none => none
      match optionalDotDigits p1.2 with
      | none => noMinor
      | some mi =>
        match matchDevSuffix (p1.2.drop (mi.length + 1)) with
        | some (suf, _) =>
          some ⟨pre ++ p1.1 ++ ['.'] ++ mi ++ suf, p1.1, some mi, suf⟩
        | none => noMinor

/-- Numeric value of a digit string, as Python `int` reads it. -/
def digitsToNat (ds : List Char) : Nat :=
  ds.foldl (fun acc c => acc * 10 + (c.toNat - '0'.toNat)) 0

/-- Embedding of `pg_get_num_dev_version`: parse a development/beta/rc version string,
raising (modelled by `Except.error`) when the pattern does not match. -/
def pg_get_num_dev_version (text_version : String) : Except String (String × Nat) :=
  match matchDev text_version.toList with
  | none => Except.error ("Undefined PostgreSQL version: " ++ text_version)
  | some res =>
    let rmatch :=
      res.major
        ++ (match res.minor with
            | some mi => (if digitsToNat mi < 10 then ['0'] else []) ++ mi
            | none => ['0', '0'])
        ++ ['0', '0']
    Except.ok (String.mk res.matched, digitsToNat rmatch)

/-- Embedding of `pg_get_num_version`: parse a stable version string, falling back to
`pg_get_num_dev_version` when the stable pattern does not match. -/
def pg_get_num_version (text_version : String) : Except String (String × Nat) :=
  match matchStable text_version.toList with
  | some res =>
    let rmatch :=
      res.major
        ++ (if digitsToNat res.minor < 10 then ['0'] else [])
        ++ res.minor
        ++ (match res.patch with
            | some pa => (if digitsToNat pa < 10 then ['0'] else []) ++ pa
            | none => ['0', '0'])
    Except.ok (String.mk res.matched, digitsToNat rmatch)
  | none => pg_get_num_dev_version text_version

/-- Whether the parse succeeded. -/
def versionOk (r : Except String (String × Nat)) : Bool :=
  match r with
  | Except.ok _ => true
  | Except.error _ => false

example : pg_get_num_version "PostgreSQL 11.9" = Except.ok ("PostgreSQL 11.9", 110900) := by rfl
example : pg_get_num_version "EnterpriseDB 11.9 (Debian 11.9-0+deb10u1)" =
    Except.ok ("EnterpriseDB 11.9", 110900) := by rfl
example : pg_get_num_version "PostgreSQL 13.0beta2" = Except.ok ("PostgreSQL 13.0", 130000) := by rfl
example : pg_get_num_version "PostgreSQL 11.9devel0" = Except.ok ("PostgreSQL 11.9", 110900) := by rfl
example : pg_get_num_dev_version "PostgreSQL 11.9devel0" =
    Except.ok ("PostgreSQL 11.9devel", 110900) := by rfl
example : pg_get_num_version "PostgreSQL 13devel" = Except.ok ("PostgreSQL 13devel", 130000) := by rfl
example : versionOk (pg_get_num_version "MariaDB 10.3") = false := by rfl
example : pg_get_num_version "PostgreSQL 9.6.22" = Except.ok ("PostgreSQL 9.6.22", 90622) := by rfl

/-! ## Session state (`Data`) and reconnection (`Data.try_reconnect`)

A live connection handle is abstracted to `PGConn`: an opaque identifier,
the resolved parameters the client library reports
(`pg_conn.info.get_parameters()`), and the version string the server would
answer to `SELECT version()`.  The outcome of a `psycopg3.connect` call is
an explicit argument of `try_reconnect`; exceptions raised by the Python
code are modelled by `Except.error`. -/

/-- Exception classes `psycopg3.connect` can raise, as `try_reconnect`
distinguishes them: the two caught classes and everything else. -/
inductive ConnectError where
  | interfaceError
  | operationalError
  | otherError
  deriving Repr, DecidableEq

/-- Abstract live connection. -/
structure PGConn where
  handle : Nat
  params : List (String × String)
  server_version : String
  deriving Repr, DecidableEq

/-- The frozen `Data` session object (`pg_conn`, `pg_version`,
`pg_num_version`, `min_duration`, `dsn_parameters`). -/
structure Data where
  pg_conn : PGConn
  pg_version : String
  pg_num_version : Nat
  min_duration : Rat
  dsn_parameters : List (String × String)
  deriving Repr, DecidableEq

/-- Embedding of `Data.try_reconnect`: `attempt` is what `psycopg3.connect(autocommit=True,
**self.dsn_parameters)` does.  `InterfaceError` and `OperationalError` are
caught and turned into `None`; success yields `attr.evolve(self,
pg_conn=..., dsn_parameters=...)`; any other exception propagates. -/
def Data.try_reconnect (self : Data) (attempt : Except ConnectError PGConn) :
    Except ConnectError (Option Data) :=
  match attempt with
  | Except.error ConnectError.interfaceError => Except.ok none
  | Except.error ConnectError.operationalError => Except.ok none
  | Except.error e => Except.error e
  | Except.ok pg_conn =>
    Except.ok (some { self with pg_conn := pg_conn, dsn_parameters := pg_conn.params })

/-! ## Rate derivation (`Data.pg_get_db_info`)

The row `(timestamp, no_xact, total_size, max_length)` fetched by the
`get_db_info` query is passed explicitly.  Python timestamps are modelled
as exact rationals; `int(x)` on the float quotient truncates toward zero.
The `try`/`except ZeroDivisionError: pass` block is modelled by the
equal-timestamp guard: the division raises exactly when the elapsed time
is zero, in which case both `tps` and `size_ev` keep their initial `0`
values. -/

/-- Python `int()` applied to a (rational) quotient: truncation toward
zero, i.e. floor for nonnegative values and negated floor of the negation
otherwise. -/
def pyTrunc (q : Rat) : Int :=
  if 0 ≤ q then ⌊q⌋ else -⌊-q⌋

/-- The dictionary `pg_get_db_info` returns (and accepts as
`prev_db_infos`). -/
structure DbInfoDict where
  timestamp : Rat
  no_xact : Int
  total_size : Int
  max_length : Rat
  tps : Int
  size_ev : Rat
  deriving Repr, DecidableEq

/-- Embedding of `Data.pg_get_db_info`, given the previous dictionary and the row the
db-info query fetched. -/
def pg_get_db_info (prev_db_infos : Option DbInfoDict)
    (timestamp : Rat) (no_xact : Int) (total_size : Int) (max_length : Rat) :
    DbInfoDict :=
  match prev_db_infos with
  | none =>
    { timestamp := timestamp, no_xact := no_xact, total_size := total_size,
      max_length := max_length, tps := 0, size_ev := 0 }
  | some prev =>
    if timestamp - prev.timestamp = 0 then
      { timestamp := timestamp, no_xact := no_xact, total_size := total_size,
        max_length := max_length, tps := 0, size_ev := 0 }
    else
      { timestamp := timestamp, no_xact := no_xact, total_size := total_size,
        max_length := max_length,
        tps := pyTrunc (((no_xact : Rat) - (prev.no_xact : Rat)) /
                 (timestamp - prev.timestamp)),
        size_ev := ((total_size : Rat) - (prev.total_size : Rat)) /
                 (timestamp - prev.timestamp) }

/-! ## Query-bracket selection (`Data.pg_get_activities`) -/

/-- The version-bracket dispatch at the top of `pg_get_activities`,
as the source's `if`/`elif` chain on `self.pg_num_version`. -/
def pg_get_activities_query (pg_num_version : Nat) : String :=
  if pg_num_version ≥ 110000 then "get_pg_activity_post_110000"
  else if pg_num_version ≥ 100000 then "get_pg_activity_post_100000"
  else if pg_num_version ≥ 90600 then "get_pg_activity_post_90600"
  else if pg_num_version ≥ 90200 then "get_pg_activity_post_90200"
  else "get_pg_activity"

/-- The activity-query version brackets, highest lower bound first. -/
def activityBrackets : List (Nat × String) :=
  [(110000, "get_pg_activity_post_110000"),
   (100000, "get_pg_activity_post_100000"),
   (90600, "get_pg_activity_post_90600"),
   (90200, "get_pg_activity_post_90200")]

/-- Modelled from the spec: selection picks the variant whose lower bound is
the greatest bound ≤ the session's numeric version code, falling back to the
oldest variant when the server predates all bounds.  (Since
`activityBrackets` is sorted by decreasing bound, the first bound ≤ the
version is the greatest such bound.) -/
def specSelectVariant (pg_num_version : Nat) : String :=
  match activityBrackets.find? (fun p => p.1 ≤ pg_num_version) with
  | some p => p.2
  | none => "get_pg_activity"

/-! ## Duration column (`Data.get_duration_column`) -/

/-- Embedding of `Data.get_duration_column`: normalize `duration_mode` to 1 outside
{1, 2, 3}, then index the column list.  (The `getD` default is unreachable
since the normalized index is 0, 1 or 2.) -/
def get_duration_column (duration_mode : Int) : String :=
  let dm := if duration_mode = 1 ∨ duration_mode = 2 ∨ duration_mode = 3
            then duration_mode else 1
  ["query_start", "xact_start", "backend_start"].getD (dm - 1).toNat "query_start"

/-! ## Local-connection check (`Data.pg_is_local`) -/

/-- Embedding of `Data.pg_is_local`, given the row `(inet_server_addr, inet_client_addr)`
fetched by the `get_pga_inet_addresses` query; a SQL NULL (Unix-socket
connection) is `none`. -/
def pg_is_local (inet_server_addr inet_client_addr : Option String) : Bool :=
  if inet_server_addr = inet_client_addr then true else false

/-! ## Caller-facing connect wrapper (`pg_connect`) -/

/-- Modelled from the spec: `utils.clean_str` is imported by the source but
its module is not under `src/`; the spec says the server's error text is
"sanitized of control characters", so this strips ASCII control characters
from the message. -/
def clean_str (s : String) : String :=
  String.mk (s.toList.filter (fun c => ¬ (c.toNat < 32 ∨ c.toNat = 127)))

/-- Outcome of one `Data.pg_connect` attempt inside the wrapper's loop:
success, an `OperationalError` (flagged when it is an `InvalidPassword`),
or any other exception (not caught by the wrapper). -/
inductive AttemptResult where
  | ok (d : Data)
  | operationalError (invalid_password : Bool) (msg : String)
  | otherException (msg : String)
  deriving Repr, DecidableEq

/-- What the caller of the wrapper observes. -/
inductive ConnectOutcome where
  | ok (d : Data)
  | systemExit (msg : String)
  | exceptionRaised (msg : String)
  | uncaught (msg : String)
  deriving Repr, DecidableEq

/-- The wrapper's failure branch for an `OperationalError` that is not
retried: `SystemExit` with the sanitized message when `exit_on_failed`,
otherwise a generic exception. -/
def connectFatal (exit_on_failed : Bool) (msg : String) : ConnectOutcome :=
  if exit_on_failed then
    ConnectOutcome.systemExit
      ("pg_activity: FATAL: " ++ clean_str (msg.replace "FATAL:" ""))
  else ConnectOutcome.exceptionRaised "Could not connect to PostgreSQL"

/-- The module-level `pg_connect` wrapper: `for nb_try in range(2)` around
`Data.pg_connect`.  `attempt1`/`attempt2` are the outcomes of the first and
(when reached) second attempt; the second component records whether
`getpass.getpass()` was invoked to prompt for a password. -/
def pg_connect_wrapper (exit_on_failed : Bool)
    (attempt1 attempt2 : AttemptResult) : ConnectOutcome × Bool :=
  match attempt1 with
  | AttemptResult.ok d => (ConnectOutcome.ok d, false)
  | AttemptResult.otherException m => (ConnectOutcome.uncaught m, false)
  | AttemptResult.operationalError invalid m =>
    if invalid then
      match attempt2 with
      | AttemptResult.ok d => (ConnectOutcome.ok d, true)
      | AttemptResult.otherException m2 => (ConnectOutcome.uncaught m2, true)
      | AttemptResult.operationalError _ m2 => (connectFatal exit_on_failed m2, true)
    else (connectFatal exit_on_failed m, false)

/-! ## Concrete sample values used by counterexamples -/

/-- A live connection to a server reporting version 11.9. -/
def sampleConn : PGConn :=
  { handle := 0, params := [("host", "/tmp"), ("dbname", "postgres")],
    server_version := "PostgreSQL 11.9" }

/-- A session established against `sampleConn`. -/
def sampleData : Data :=
  { pg_conn := sampleConn, pg_version := "PostgreSQL 11.9",
    pg_num_version := 110900, min_duration := 0,
    dsn_parameters := [("host", "/tmp"), ("dbname", "postgres")] }

/-- A fresh connection to the same endpoint after a server upgrade to 13.0. -/
def upgradedConn : PGConn :=
  { handle := 1, params := [("host", "/tmp"), ("dbname", "postgres")],
    server_version := "PostgreSQL 13.0" }

/-! ## Canonical digit groups

Auxiliary predicates for stating the numeric-encoding rule
`major*10000 + minor*100 + patch`: a digit group is canonical when its
characters are ASCII digits and it is the usual one- or two-digit decimal
writing of its value (no leading zero, value below 100). -/

/-- All characters are ASCII digits (codes 48-57). -/
def allDigits (ds : List Char) : Prop :=
  ∀ c ∈ ds, 48 ≤ c.toNat ∧ c.toNat ≤ 57

/-- A canonical one- or two-digit decimal group. -/
def isCanon2 (ds : List Char) : Prop :=
  allDigits ds ∧ (ds.length = 1 ∨ (ds.length = 2 ∧ 10 ≤ digitsToNat ds))

/-- Canonicity of the optional patch group. -/
def isCanonPatch : Option (List Char) → Prop
  | none => True
  | some ds => isCanon2 ds

/-- Numeric value of the optional patch group (0 when absent). -/
def patchVal : Option (List Char) → Nat
  | none => 0
  | some ds => digitsToNat ds

/-! ## Helper lemmas on digit strings -/

theorem digits_foldl (b : List Char) (acc : Nat) :
    b.foldl (fun a c => a * 10 + (c.toNat - '0'.toNat)) acc
      = acc * 10 ^ b.length + digitsToNat b := by
  induction b generalizing acc with
  | nil => simp [digitsToNat]
  | cons c cs ih =>
    show List.foldl _ (acc * 10 + (c.toNat - '0'.toNat)) cs = _
    rw [ih]
    have h2 : digitsToNat (c :: cs)
        = (c.toNat - '0'.toNat) * 10 ^ cs.length + digitsToNat cs := by
      show List.foldl _ (0 * 10 + (c.toNat - '0'.toNat)) cs = _
      rw [ih]; ring
    rw [h2, List.length_cons]; ring

theorem digitsToNat_append (a b : List Char) :
    digitsToNat (a ++ b) = digitsToNat a * 10 ^ b.length + digitsToNat b := by
  unfold digitsToNat
  rw [List.foldl_append]
  exact digits_foldl b _

theorem digitsToNat_zero_cons (ds : List Char) :
    digitsToNat ('0' :: ds) = digitsToNat ds := by
  show List.foldl _ (0 * 10 + ('0'.toNat - '0'.toNat)) ds = List.foldl _ 0 ds
  norm_num

theorem digitsToNat_single (c : Char) : digitsToNat [c] = c.toNat - '0'.toNat := by
  simp [digitsToNat]

/-- Value of the zero-padded two-character form of a digit group. -/
theorem pad_val (ds : List Char) :
    digitsToNat ((if digitsToNat ds < 10 then ['0'] else []) ++ ds) = digitsToNat ds := by
  by_cases h : digitsToNat ds < 10 <;>
    simp [h, List.cons_append, digitsToNat_zero_cons]

/-- Length of the zero-padded two-character form of a canonical group. -/
theorem pad_len (ds : List Char) (h : isCanon2 ds) :
    ((if digitsToNat ds < 10 then ['0'] else []) ++ ds).length = 2 := by
  obtain ⟨hd, hlen⟩ := h
  rcases hlen with h1 | ⟨h2, h10⟩
  · obtain ⟨c, rfl⟩ := List.length_eq_one.mp h1
    have hc := hd c (by simp)
    have h0 : '0'.toNat = 48 := rfl
    have : digitsToNat [c] < 10 := by rw [digitsToNat_single]; omega
    simp [this]
  · have : ¬ digitsToNat ds < 10 := by omega
    simp [this, h2]

/-- The numeric code computed by the stable branch of `pg_get_num_version`,
for canonical minor and patch groups. -/
theorem stable_rmatch_val (res : StableMatch)
    (hmi : isCanon2 res.minor) (hpa : isCanonPatch res.patch) :
    digitsToNat
      (res.major
        ++ (if digitsToNat res.minor < 10 then ['0'] else [])
        ++ res.minor
        ++ (match res.patch with
            | some pa => (if digitsToNat pa < 10 then ['0'] else []) ++ pa
            | none => ['0', '0']))
      = digitsToNat res.major * 10000 + digitsToNat res.minor * 100 + patchVal res.patch := by
  have hTlen : (match res.patch with
      | some pa => (if digitsToNat pa < 10 then ['0'] else []) ++ pa
      | none => (['0', '0'] : List Char)).length = 2 := by
    cases hp : res.patch with
    | none => rfl
    | some pa => exact pad_len pa (by rw [hp] at hpa; exact hpa)
  have hTval : digitsToNat (match res.patch with
      | some pa => (if digitsToNat pa < 10 then ['0'] else []) ++ pa
      | none => (['0', '0'] : List Char)) = patchVal res.patch := by
    cases hp : res.patch with
    | none => rfl
    | some pa => exact pad_val pa
  rw [List.append_assoc res.major _ res.minor,
      List.append_assoc res.major _ _,
      digitsToNat_append, digitsToNat_append, List.length_append,
      pad_len res.minor hmi, pad_val res.minor, hTlen, hTval]
  have h4 : (10 : ℕ) ^ (2 + 2) = 10000 := by norm_num
  have h2 : (10 : ℕ) ^ 2 = 100 := by norm_num
  rw [h4, h2]
  omega

/-- The numeric code computed by `pg_get_num_dev_version`, for a canonical
minor group. -/
theorem dev_rmatch_val (res : DevMatch) (hmi : isCanonPatch res.minor) :
    digitsToNat
      (res.major
        ++ (match res.minor with
            | some mi => (if digitsToNat mi < 10 then ['0'] else []) ++ mi
            | none => ['0', '0'])
        ++ ['0', '0'])
      = digitsToNat res.major * 10000 + patchVal res.minor * 100 := by
  have hTlen : (match res.minor with
      | some mi => (if digitsToNat mi < 10 then ['0'] else []) ++ mi
      | none => (['0', '0'] : List Char)).length = 2 := by
    cases hm : res.minor with
    | none => rfl
    | some mi => exact pad_len mi (by rw [hm] at hmi; exact hmi)
  have hTval : digitsToNat (match res.minor with
      | some mi => (if digitsToNat mi < 10 then ['0'] else []) ++ mi
      | none => (['0', '0'] : List Char)) = patchVal res.minor := by
    cases hm : res.minor with
    | none => rfl
    | some mi => exact pad_val mi
  have h00l : (['0', '0'] : List Char).length = 2 := rfl
  have h00v : digitsToNat ['0', '0'] = 0 := rfl
  rw [List.append_assoc res.major _ _,
      digitsToNat_append, digitsToNat_append, List.length_append,
      hTlen, hTval, h00l, h00v]
  have h4 : (10 : ℕ) ^ (2 + 2) = 10000 := by norm_num
  have h2 : (10 : ℕ) ^ 2 = 100 := by norm_num
  rw [h4, h2]
  omega

/-- Stable-pattern inputs with canonical minor/patch groups resolve to
`major*10000 + minor*100 + patch`. -/
theorem pg_get_num_version_stable (s : String) (res : StableMatch)
    (hm : matchStable s.toList = some res)
    (hmi : isCanon2 res.minor) (hpa : isCanonPatch res.patch) :
    pg_get_num_version s = Except.ok (String.mk res.matched,
      digitsToNat res.major * 10000 + digitsToNat res.minor * 100 + patchVal res.patch) := by
  unfold pg_get_num_version
  rw [hm]
  exact congrArg (fun n => Except.ok (String.mk res.matched, n))
    (stable_rmatch_val res hmi hpa)

/-- Development-pattern inputs (not matching the stable pattern) resolve to
`major*10000 + minor*100`, the pre-release suffix collapsing patch to 0. -/
theorem pg_get_num_version_dev (s : String) (res : DevMatch)
    (hs : matchStable s.toList = none) (hm : matchDev s.toList = some res)
    (hmi : isCanonPatch res.minor) :
    pg_get_num_version s = Except.ok (String.mk res.matched,
      digitsToNat res.major * 10000 + patchVal res.minor * 100) := by
  unfold pg_get_num_version pg_get_num_dev_version
  rw [hs, hm]
  exact congrArg (fun n => Except.ok (String.mk res.matched, n))
    (dev_rmatch_val res hmi)

/-! ## Claim theorems -/

/-- C1, counterexample: the claim says `tps` equals the *floor* of the
transaction delta over the time delta even for negative deltas.  With
`previous = {timestamp 0, xact_count 5}` and `current = {timestamp 2,
xact_count 0}` the code yields `int(-5 / 2) = -2`, while the floor is
`-3`. -/
theorem claim_C1_counterexample :
    (pg_get_db_info
        (some { timestamp := 0, no_xact := 5, total_size := 0, max_length := 0,
                tps := 0, size_ev := 0 })
        2 0 0 0).tps = -2 ∧
    (⌊(((0 : Int) : Rat) - ((5 : Int) : Rat)) / ((2 : Rat) - (0 : Rat))⌋ : Int) = -3 ∧
    (-2 : Int) ≠ -3 := by
  refine ⟨?_, by norm_num, by decide⟩
  simp only [pg_get_db_info, pyTrunc]
  norm_num

/-- C1, amended: whenever a previous snapshot exists and the timestamps
differ, the `tps` field returned by `pg_get_db_info` equals the quotient
`(current.no_xact - previous.no_xact) / (current.timestamp -
previous.timestamp)` truncated toward zero (Python `int()`), which agrees
with the floor only when the quotient is nonnegative. -/
theorem claim_C1_amended (prev : DbInfoDict) (timestamp : Rat)
    (no_xact total_size : Int) (max_length : Rat)
    (h : timestamp ≠ prev.timestamp) :
    (pg_get_db_info (some prev) timestamp no_xact total_size max_length).tps
      = pyTrunc (((no_xact : Rat) - (prev.no_xact : Rat)) / (timestamp - prev.timestamp)) := by
  have h2 : ¬ (timestamp - prev.timestamp = 0) := fun hh => h (sub_eq_zero.mp hh)
  simp [pg_get_db_info, h2]

/-- C1, witness for the amended theorem at `previous = {timestamp 0,
xact_count 5}`, `current = {timestamp 2, xact_count 7}`. -/
theorem claim_C1_witness :
    (pg_get_db_info
        (some { timestamp := 0, no_xact := 5, total_size := 0, max_length := 0,
                tps := 0, size_ev := 0 })
        2 7 0 0).tps
      = pyTrunc ((((7 : Int) : Rat) - ((5 : Int) : Rat)) / ((2 : Rat) - (0 : Rat))) :=
  claim_C1_amended
    { timestamp := 0, no_xact := 5, total_size := 0, max_length := 0,
      tps := 0, size_ev := 0 }
    2 7 0 0 (by norm_num)

/-- C2, counterexample: the claim says a reconnect attempt that fails *for
any reason* returns `None`; but `try_reconnect` catches only
`InterfaceError` and `OperationalError`, so a connect attempt failing with
any other exception propagates instead of returning `None`. -/
theorem claim_C2_counterexample :
    Data.try_reconnect sampleData (Except.error ConnectError.otherError)
      = Except.error ConnectError.otherError ∧
    Data.try_reconnect sampleData (Except.error ConnectError.otherError)
      ≠ Except.ok none := by
  refine ⟨rfl, ?_⟩
  intro h
  simp [Data.try_reconnect] at h

/-- C2, amended: a reconnect attempt that fails with `InterfaceError` or
`OperationalError` returns the explicit "no session" value `None` (other
exception classes propagate); the existing session value is never mutated —
`try_reconnect` builds a fresh `Data` and `Data` is frozen. -/
theorem claim_C2_amended (d : Data) :
    Data.try_reconnect d (Except.error ConnectError.interfaceError) = Except.ok none ∧
    Data.try_reconnect d (Except.error ConnectError.operationalError) = Except.ok none :=
  ⟨rfl, rfl⟩

/-- C3, counterexample: the claim says a successful reconnect re-resolves
the server version.  Reconnecting a session recorded at version 11.9
against a server now reporting "PostgreSQL 13.0" returns a session still
carrying numeric version 110900, not the re-resolved 130000. -/
theorem claim_C3_counterexample :
    Data.try_reconnect sampleData (Except.ok upgradedConn)
      = Except.ok (some { sampleData with
                          pg_conn := upgradedConn,
                          dsn_parameters := upgradedConn.params }) ∧
    pg_get_num_version upgradedConn.server_version
      = Except.ok ("PostgreSQL 13.0", 130000) ∧
    ({ sampleData with
       pg_conn := upgradedConn,
       dsn_parameters := upgradedConn.params } : Data).pg_num_version = 110900 ∧
    (110900 : Nat) ≠ 130000 :=
  ⟨rfl, rfl, rfl, by decide⟩

/-- C3, amended: on success `try_reconnect` replaces only the connection
handle and the stored connection parameters; the version display string,
numeric version code and minimum-duration filter are carried over unchanged
from the old session (no re-resolution). -/
theorem claim_C3_amended (d : Data) (c : PGConn) :
    ∃ e : Data, Data.try_reconnect d (Except.ok c) = Except.ok (some e) ∧
      e.pg_conn = c ∧ e.dsn_parameters = c.params ∧
      e.pg_version = d.pg_version ∧ e.pg_num_version = d.pg_num_version ∧
      e.min_duration = d.min_duration :=
  ⟨{ d with pg_conn := c, dsn_parameters := c.params },
   rfl, rfl, rfl, rfl, rfl, rfl⟩

/-- C4: with no previous snapshot, and likewise for any pair with equal
timestamps (whatever the counter deltas), `pg_get_db_info` returns
`tps = 0` and `size_ev = 0.0`; the embedded function is total, mirroring
the source's `except ZeroDivisionError: pass` that absorbs the division
error. -/
theorem claim_C4_rates_zero (timestamp : Rat) (no_xact total_size : Int)
    (max_length : Rat) (prev : DbInfoDict) :
    ((pg_get_db_info none timestamp no_xact total_size max_length).tps = 0 ∧
     (pg_get_db_info none timestamp no_xact total_size max_length).size_ev = 0) ∧
    ((pg_get_db_info (some { prev with timestamp := timestamp })
        timestamp no_xact total_size max_length).tps = 0 ∧
     (pg_get_db_info (some { prev with timestamp := timestamp })
        timestamp no_xact total_size max_length).size_ev = 0) := by
  refine ⟨⟨rfl, rfl⟩, ?_, ?_⟩ <;> simp [pg_get_db_info]

/-- C5, counterexample: the claim says
`resolve("PostgreSQL 11.9devel0") = ("PostgreSQL 11.9devel", 110900)`, but
the stable-release pattern already matches the prefix `PostgreSQL 11.9` of
that input, so version resolution returns the short string
`"PostgreSQL 11.9"` (the numeric code 110900 does agree). -/
theorem claim_C5_counterexample :
    pg_get_num_version "PostgreSQL 11.9devel0"
      = Except.ok ("PostgreSQL 11.9", 110900) ∧
    ("PostgreSQL 11.9", (110900 : Nat)) ≠ ("PostgreSQL 11.9devel", 110900) :=
  ⟨rfl, by decide⟩

/-- C5, amended: matched versions are encoded as
`major*10000 + minor*100 + patch` (canonically written groups), patch
defaults to 0 when absent and pre-release suffixes collapse patch to 0;
`resolve("PostgreSQL 11.9") = ("PostgreSQL 11.9", 110900)`,
`resolve("EnterpriseDB 11.9 (Debian 11.9-0+deb10u1)") = ("EnterpriseDB 11.9", 110900)`,
`resolve("PostgreSQL 13.0beta2") = ("PostgreSQL 13.0", 130000)` and
`resolve("PostgreSQL 11.9devel0") = ("PostgreSQL 11.9", 110900)` — the
stable pattern matches that last input first; the development helper called
directly yields `("PostgreSQL 11.9devel", 110900)`. -/
theorem claim_C5_amended :
    (∀ (s : String) (res : StableMatch), matchStable s.toList = some res →
       isCanon2 res.minor → isCanonPatch res.patch →
       pg_get_num_version s = Except.ok (String.mk res.matched,
         digitsToNat res.major * 10000 + digitsToNat res.minor * 100 + patchVal res.patch)) ∧
    (∀ (s : String) (res : DevMatch), matchStable s.toList = none →
       matchDev s.toList = some res → isCanonPatch res.minor →
       pg_get_num_version s = Except.ok (String.mk res.matched,
         digitsToNat res.major * 10000 + patchVal res.minor * 100)) ∧
    pg_get_num_version "PostgreSQL 11.9" = Except.ok ("PostgreSQL 11.9", 110900) ∧
    pg_get_num_version "EnterpriseDB 11.9 (Debian 11.9-0+deb10u1)"
      = Except.ok ("EnterpriseDB 11.9", 110900) ∧
    pg_get_num_version "PostgreSQL 13.0beta2" = Except.ok ("PostgreSQL 13.0", 130000) ∧
    pg_get_num_version "PostgreSQL 11.9devel0" = Except.ok ("PostgreSQL 11.9", 110900) ∧
    pg_get_num_dev_version "PostgreSQL 11.9devel0"
      = Except.ok ("PostgreSQL 11.9devel", 110900) :=
  ⟨pg_get_num_version_stable, pg_get_num_version_dev, rfl, rfl, rfl, rfl, rfl⟩

/-- C5, witness: the general encoding clause of the amended claim applied
to the concrete input "PostgreSQL 14.2". -/
theorem claim_C5_witness :
    pg_get_num_version "PostgreSQL 14.2" = Except.ok ("PostgreSQL 14.2", 140200) :=
  claim_C5_amended.1 "PostgreSQL 14.2"
    ⟨"PostgreSQL 14.2".toList, ['1', '4'], ['2'], none⟩
    (by rfl)
    ⟨show ∀ c ∈ (['2'] : List Char), 48 ≤ c.toNat ∧ c.toNat ≤ 57 by decide,
     Or.inl rfl⟩
    trivial

/-- C6: version resolution succeeds exactly on the inputs matched by one of
the two patterns (the stable-release regex or the development regex), and
raises the version-parse error on everything else. -/
theorem claim_C6_total (s : String) :
    versionOk (pg_get_num_version s)
      = ((matchStable s.toList).isSome || (matchDev s.toList).isSome) := by
  have hs : s.toList = s.data := rfl
  cases h1 : matchStable s.data <;> cases h2 : matchDev s.data <;>
    simp [pg_get_num_version, pg_get_num_dev_version, versionOk, hs, h1, h2]

/-- C7: the activity-query dispatch selects the `>=110000` variant at
110000, the `>=100000` variant at 109999 and the legacy variant at 90100,
and in general agrees with picking the variant whose lower bound is the
greatest bound at most the session's numeric version (oldest variant when
the server predates all bounds). -/
theorem claim_C7_brackets :
    pg_get_activities_query 110000 = "get_pg_activity_post_110000" ∧
    pg_get_activities_query 109999 = "get_pg_activity_post_100000" ∧
    pg_get_activities_query 90100 = "get_pg_activity" ∧
    ∀ v : Nat, pg_get_activities_query v = specSelectVariant v := by
  refine ⟨by decide, by decide, by decide, ?_⟩
  intro v
  by_cases h1 : 110000 ≤ v <;> by_cases h2 : 100000 ≤ v <;>
    by_cases h3 : 90600 ≤ v <;> by_cases h4 : 90200 ≤ v <;>
    simp [pg_get_activities_query, specSelectVariant, activityBrackets,
          List.find?, h1, h2, h3, h4, ge_iff_le]

/-- C8: with the default `exit_on_failed`, the connect wrapper (a) returns
the second attempt's session after a first invalid-credentials failure,
having prompted for a password exactly once, (b) turns a second
operational failure (credentials-related or not) into an immediate
`SystemExit` carrying the sanitized server message, and (c) is fatal
immediately, without prompting or retrying, on a first operational failure
that is not an invalid-credentials error. -/
theorem claim_C8_retry_policy (m m2 : String) (d : Data) (b : Bool)
    (a2 : AttemptResult) :
    pg_connect_wrapper true (AttemptResult.operationalError true m)
        (AttemptResult.ok d) = (ConnectOutcome.ok d, true) ∧
    pg_connect_wrapper true (AttemptResult.operationalError true m)
        (AttemptResult.operationalError b m2)
      = (ConnectOutcome.systemExit
          ("pg_activity: FATAL: " ++ clean_str (m2.replace "FATAL:" "")), true) ∧
    pg_connect_wrapper true (AttemptResult.operationalError false m) a2
      = (ConnectOutcome.systemExit
          ("pg_activity: FATAL: " ++ clean_str (m.replace "FATAL:" "")), false) ∧
    pg_connect_wrapper true (AttemptResult.ok d) a2 = (ConnectOutcome.ok d, false) :=
  ⟨rfl, rfl, rfl, rfl⟩

/-- C9: the duration-column selector maps 1 to `query_start`, 2 to
`xact_start`, 3 to `backend_start`, and every other integer to
`query_start`; the embedded function is total. -/
theorem claim_C9_duration_column (m : Int) (h1 : m ≠ 1) (h2 : m ≠ 2) (h3 : m ≠ 3) :
    get_duration_column 1 = "query_start" ∧
    get_duration_column 2 = "xact_start" ∧
    get_duration_column 3 = "backend_start" ∧
    get_duration_column m = "query_start" := by
  refine ⟨rfl, rfl, rfl, ?_⟩
  simp [get_duration_column, h1, h2, h3]

/-- C9, witness at `duration_mode = 9`. -/
theorem claim_C9_witness :
    ((9 : Int) ≠ 1 ∧ (9 : Int) ≠ 2 ∧ (9 : Int) ≠ 3) ∧
    get_duration_column 9 = "query_start" :=
  ⟨⟨by decide, by decide, by decide⟩,
   (claim_C9_duration_column 9 (by decide) (by decide) (by decide)).2.2.2⟩

/-- C10: the local-connection check returns `true` exactly when the
server-observed and client-observed addresses are equal; in particular two
NULL addresses (a Unix-socket connection) compare equal and yield `true`. -/
theorem claim_C10_is_local (a b : Option String) :
    pg_is_local a b = decide (a = b) ∧ pg_is_local none none = true := by
  refine ⟨?_, rfl⟩
  by_cases h : a = b <;> simp [pg_is_local, h]

end PgActivity
